import Mathlib

/-!
Verification of the HustleForge posting bot (`src/main.py`) against its
natural-language specification. The Python program is shallowly embedded:
pure functions become Lean functions; the file-backed state store becomes an
explicit record that the orchestrator's steps transform; network calls and
`random.choice` results become explicit parameters. Machine behaviour notes:
Python `//` on possibly negative ints is floor division and is modelled with
`Int.fdiv`; `int(x * 5 / 4)` on non-negative values is modelled with `Nat`
division; PIL pixel data is modelled as a luminance function into `ℚ`.
-/

namespace HustleForge

/-! ## Text splitting and joining

`str.split()` in Python splits on runs of whitespace and discards empty
pieces. We model it character-structurally so that the kernel can evaluate
it: `splitChunks` cuts the character list at whitespace, `pySplit` drops the
empty chunks.
-/

/-- Whitespace as Python `str.split()` sees it (space, tab, newline, CR). -/
def isWs (c : Char) : Bool :=
  c = ' ' || c = '\t' || c = '\n' || c = '\r'

/-- Cut a character list at every whitespace character (empty pieces kept). -/
def splitChunks : List Char → List (List Char)
  | [] => [[]]
  | c :: cs =>
      let r := splitChunks cs
      if isWs c then [] :: r
      else
        match r with
        | [] => [[c]]
        | h :: t => (c :: h) :: t

/-- Model of Python `text.split()`: whitespace-separated words, empties dropped. -/
def pySplit (s : String) : List String :=
  ((splitChunks s.data).map (fun l => String.mk l)).filter (fun w => w ≠ "")

/-- Join words with single spaces: the string `current` holds in the Python
wrap loop when the accumulated words are `ws` (`f"{current} {w}".strip()`
reduces to this because split words carry no whitespace). -/
def joinWords : List String → String
  | [] => ""
  | [w] => w
  | w :: ws => w ++ " " ++ joinWords ws

/-! ## Greedy word wrap (`add_text`, lines 540–551)

The Python loop keeps a current line, appends the next word while the
rendered width of the tentative line stays within `BOX_WIDTH`, and emits the
current line on overflow, finally emitting the residue. A line is
represented by its word list; the emitted string is `joinWords` of it. The
rendered-width function `width` (PIL `draw.textlength` at the chosen font)
is a parameter.
-/

/-- The wrap loop: `cur` is the word list of the line under construction. -/
def wrapAux (width : String → ℕ) (boxW : ℕ) : List String → List String → List (List String)
  | [], cur => [cur]
  | w :: ws, cur =>
      if width (joinWords (cur ++ [w])) ≤ boxW then
        wrapAux width boxW ws (cur ++ [w])
      else
        cur :: wrapAux width boxW ws [w]

/-- The wrapped lines of a text, as the strings the Python code renders. -/
def wrapTextLines (width : String → ℕ) (boxW : ℕ) (text : String) : List String :=
  (wrapAux width boxW (pySplit text) []).map joinWords

/-! ## Typography constants (`add_text`, lines 508–517) -/

/-- `FONT_SIZE = 38 if len(text) <= 90 else 34`. -/
def fontSizeOf (text : String) : ℕ :=
  if text.length ≤ 90 then 38 else 34

/-- `LINE_HEIGHT = int(FONT_SIZE * 1.35)`. -/
def lineHeightOf (text : String) : ℕ :=
  fontSizeOf text * 135 / 100

/-- `BOX_WIDTH = int(img.width * 0.70)`. -/
def boxWidthOf (imgW : ℕ) : ℕ :=
  imgW * 70 / 100

/-- `BOX_HEIGHT = LINE_HEIGHT * 4`. -/
def boxHeightOf (text : String) : ℕ :=
  lineHeightOf text * 4

/-- `BOX_X = (img.width - BOX_WIDTH) // 2`. -/
def boxXOf (imgW : ℕ) : ℕ :=
  (imgW - boxWidthOf imgW) / 2

/-- The wrapped line word-lists `add_text` produces for a text on an image of
width `imgW`; `width fs s` is the rendered pixel width of `s` at font size
`fs`. -/
def addTextLineWords (width : ℕ → String → ℕ) (imgW : ℕ) (text : String) :
    List (List String) :=
  wrapAux (width (fontSizeOf text)) (boxWidthOf imgW) (pySplit text) []

/-- The wrapped lines `add_text` renders, as strings. -/
def addTextLines (width : ℕ → String → ℕ) (imgW : ℕ) (text : String) : List String :=
  (addTextLineWords width imgW text).map joinWords

/-! ### Wrap lemmas -/

theorem joinWords_singleton (w : String) : joinWords [w] = w := rfl

theorem wrapAux_flatten (width : String → ℕ) (boxW : ℕ) :
    ∀ (ws cur : List String), (wrapAux width boxW ws cur).flatten = cur ++ ws := by
  intro ws
  induction ws with
  | nil => intro cur; simp [wrapAux]
  | cons w ws ih =>
      intro cur
      simp only [wrapAux]
      split
      · rw [ih]; simp
      · simp [List.flatten, ih]

theorem wrapAux_ne_nil (width : String → ℕ) (boxW : ℕ) :
    ∀ (ws cur : List String), wrapAux width boxW ws cur ≠ [] := by
  intro ws
  induction ws with
  | nil => intro cur; simp [wrapAux]
  | cons w ws ih =>
      intro cur
      simp only [wrapAux]
      split
      · exact ih _
      · simp

theorem wrapAux_width_le (width : String → ℕ) (boxW : ℕ) :
    ∀ (ws cur : List String), width (joinWords cur) ≤ boxW →
      (∀ w ∈ ws, width w ≤ boxW) →
      ∀ l ∈ wrapAux width boxW ws cur, width (joinWords l) ≤ boxW := by
  intro ws
  induction ws with
  | nil =>
      intro cur hcur _ l hl
      simp [wrapAux] at hl
      subst hl; exact hcur
  | cons w ws ih =>
      intro cur hcur hws l hl
      simp only [wrapAux] at hl
      by_cases h : width (joinWords (cur ++ [w])) ≤ boxW
      · rw [if_pos h] at hl
        exact ih (cur ++ [w]) h (fun x hx => hws x (List.mem_cons_of_mem _ hx)) l hl
      · rw [if_neg h] at hl
        rcases List.mem_cons.mp hl with rfl | hl
        · exact hcur
        · refine ih [w] ?_ (fun x hx => hws x (List.mem_cons_of_mem _ hx)) l hl
          rw [joinWords_singleton]
          exact hws w (List.mem_cons_self _ _)

/-! ## Content bank (`THOUGHT_BANK`), scenes (`SCENES`) and seasonal map -/

/-- `THOUGHT_BANK`: category name paired with its thought list, in source
order (Python dicts preserve insertion order). -/
def THOUGHT_BANK : List (String × List String) :=
  [ ("grind",
     [ "While they sleep, I build.",
       "The grind doesn't care about your excuses.",
       "Late nights now. Private jets later.",
       "Work in silence. Let success make the noise.",
       "Your only competition is the person you were yesterday.",
       "Outwork everyone. Outlearn everyone. Outlast everyone.",
       "The hustle is lonely. So is the top. Get used to it." ]),
    ("vengeance",
     [ "Let your success be the revenge they never saw coming.",
       "They laughed at my dreams. Now they watch me live them.",
       "Every rejection is just fuel for the fire.",
       "Doubt me. It only makes my victory sweeter.",
       "I remember every single person who counted me out.",
       "Use their disrespect as your motivation.",
       "The best revenge is massive success." ]),
    ("discipline",
     [ "Motivation fades. Discipline stays.",
       "Champions are made when no one is watching.",
       "Show up even when you don't want to. Especially then.",
       "Consistency is more powerful than talent.",
       "Discipline is choosing between what you want now and what you want most.",
       "Suffer the pain of discipline or suffer the pain of regret.",
       "I don't count days. I make days count." ]),
    ("mindset",
     [ "A lion doesn't lose sleep over the opinions of sheep.",
       "Your mind quits a thousand times before your body does.",
       "Weak thoughts create weak results.",
       "Think like a winner. Train like a winner. Become a winner.",
       "The only limits that exist are the ones you accept.",
       "Pressure either bursts pipes or creates diamonds.",
       "I didn't come this far to only come this far." ]),
    ("success",
     [ "Success isn't given. It's earned.",
       "They don't want you to win. Win anyway.",
       "I'm not lucky. I'm relentless.",
       "The top is lonely, but the view is worth it.",
       "Build in silence. Arrive in violence.",
       "Results speak louder than intentions.",
       "Winners find ways. Losers find excuses." ]),
    ("struggle",
     [ "The pain you feel today is the strength you'll have tomorrow.",
       "Embrace the struggle. It's forging you into something unstoppable.",
       "Rock bottom became the solid foundation I built my empire on.",
       "Every setback is a setup for a comeback.",
       "I didn't come from money. I came from hunger.",
       "Hard times create strong people.",
       "The wound is where the light enters. Then the fire begins." ]) ]

/-- Every thought of the bank, in category order: the full content bank. -/
def allThoughts : List String :=
  THOUGHT_BANK.flatMap Prod.snd

/-- A `SCENES` entry: `{name, scene, details}`. -/
structure Scene where
  name : String
  scene : String
  details : String
deriving DecidableEq

/-- The eight `SCENES` of the source, in order. -/
def SCENES : List Scene :=
  [ ⟨"city_skyline_night",
     "City skyline at night with lit office building windows",
     "Single illuminated corner office, distant city lights, urban ambition"⟩,
    ⟨"empty_gym_4am",
     "Empty industrial gym at 4 AM with harsh overhead lights",
     "Heavy weights, worn floor, motivational posters, solitary dedication"⟩,
    ⟨"late_night_desk",
     "Late-night desk setup with laptop glow and coffee cups",
     "Multiple monitors, scattered notes, dim room, focused energy"⟩,
    ⟨"rain_streets_dawn",
     "Rain-soaked city streets at dawn with neon reflections",
     "Empty sidewalks, puddle reflections, early morning hustle"⟩,
    ⟨"midnight_coffee_shop",
     "24-hour coffee shop at midnight with a lone figure working",
     "Warm interior light, laptop open, coffee steam, urban solitude"⟩,
    ⟨"construction_sunrise",
     "Construction site at sunrise with workers arriving",
     "Steel beams, hard hats, orange sky, building something great"⟩,
    ⟨"empty_boardroom",
     "Empty corporate boardroom at night with city view",
     "Glass walls, leather chairs, city lights backdrop, ambition"⟩,
    ⟨"mountain_peak_climb",
     "Person standing at mountain peak after grueling climb",
     "Dramatic clouds below, harsh wind, victorious moment, earned view"⟩ ]

/-- `SEASONAL_MAP`: month string to preferred thought categories. -/
def SEASONAL_MAP : List (String × List String) :=
  [ ("01", ["mindset", "discipline"]),
    ("09", ["grind", "discipline"]),
    ("12", ["success", "struggle"]) ]

/-- `THOUGHT_COOLDOWN_DAYS = 35`. -/
def THOUGHT_COOLDOWN_DAYS : ℕ := 35

/-- `SCENE_COOLDOWN_DAYS = 5`. -/
def SCENE_COOLDOWN_DAYS : ℕ := 5

/-! ## Content selector (`choose_scene_and_text`, lines 352–408)

Dates are modelled as day numbers (`Int`); the `%Y-%m-%d` strings of the
JSON history files always parse to midnight, so
`(today_dt - last_used_dt).days` is the difference of day numbers. The
`random.choice` calls are modelled by natural-number oracles `r1 r2 r3`
through `choiceD`, which picks index `r % length` — every index is reachable
and, for a uniformly distributed oracle, each list element is equally
likely, matching `random.choice`'s uniform draw. -/

/-- Assoc-list lookup by decidable equality (a JSON object field read). -/
def getVal {α : Type} (l : List (String × α)) (k : String) : Option α :=
  match l with
  | [] => none
  | (k', v) :: t => if k' = k then some v else getVal t k

/-- Uniform choice oracle: element at index `r % length` (default for `[]`). -/
def choiceD {α : Type} (l : List α) (d : α) (r : ℕ) : α :=
  l.getD (r % l.length) d

/-- A thought is eligible when it was never used or its last-use day lies at
least `THOUGHT_COOLDOWN_DAYS` back (the loop skips it when
`days_diff < THOUGHT_COOLDOWN_DAYS`). -/
def thoughtEligible (history : List (String × Int)) (today : Int) (t : String) : Bool :=
  match getVal history t with
  | none => true
  | some last => !(today - last < (THOUGHT_COOLDOWN_DAYS : Int))

/-- `all_eligible`: the (category, thought) pairs not on cooldown, in bank
order. -/
def allEligible (history : List (String × Int)) (today : Int) : List (String × String) :=
  THOUGHT_BANK.flatMap (fun ct => (ct.2.filter (thoughtEligible history today)).map (fun t => (ct.1, t)))

/-- `available_scenes`: scenes whose last use lies at least
`SCENE_COOLDOWN_DAYS` back; the whole `SCENES` list when that filter leaves
nothing. -/
def availableScenes (sceneHistory : List (String × Int)) (today : Int) : List Scene :=
  let recent := (sceneHistory.filter (fun sd => today - sd.2 < (SCENE_COOLDOWN_DAYS : Int))).map Prod.fst
  let avail := SCENES.filter (fun s => !(recent.contains s.name))
  if avail = [] then SCENES else avail

/-- A default scene for `List.getD`; never selected from a nonempty list. -/
def dummyScene : Scene := ⟨"", "", ""⟩

/-- `choose_scene_and_text`: the three `random.choice` draws of each branch
are fed by the oracles `r1` (fallback category), `r2` (thought / pair) and
`r3` (scene). -/
def choose_scene_and_text (history sceneHistory : List (String × Int)) (today : Int)
    (month : String) (r1 r2 r3 : ℕ) : Scene × String :=
  let elig := allEligible history today
  if elig = [] then
    let cat := choiceD THOUGHT_BANK ("", []) r1
    let text := choiceD cat.2 "" r2
    let sceneData := choiceD SCENES dummyScene r3
    (sceneData, text)
  else
    let avail := availableScenes sceneHistory today
    let preferred := (getVal SEASONAL_MAP month).getD []
    let seasonal := elig.filter (fun x => preferred.contains x.1)
    if preferred ≠ [] ∧ seasonal ≠ [] then
      (choiceD avail dummyScene r3, (choiceD seasonal ("", "") r2).2)
    else
      (choiceD avail dummyScene r3, (choiceD elig ("", "") r2).2)

/-! ## Holiday posts (`HOLIDAY_POSTS`, `get_today_holiday`) -/

/-- A `HOLIDAY_POSTS` entry: `{name, text, scene}`. -/
structure HolidayPost where
  name : String
  text : String
  scene : String
deriving DecidableEq

/-- The twelve exact-date holiday posts of the source. -/
def HOLIDAY_POSTS : List ((ℕ × ℕ) × HolidayPost) :=
  [ ((1, 1), ⟨"new_year", "New year. Same hunger. No days off.",
      "city skyline at dawn with lone figure watching from rooftop, new year sunrise"⟩),
    ((2, 14), ⟨"valentines", "Fall in love with the grind. It will never let you down.",
      "late night desk with laptop and coffee, focused dedication, warm lamp light"⟩),
    ((3, 8), ⟨"womens_day", "Strong women don't wait for opportunities. They create them.",
      "woman in power suit walking through city at sunrise, confident stride"⟩),
    ((4, 1), ⟨"april_fools", "The biggest joke? Thinking you can outwork me.",
      "empty gym at 4am with heavy weights, single figure training"⟩),
    ((5, 1), ⟨"labor_may", "They call it work. I call it war.",
      "construction worker at dawn, steel and sweat, building something great"⟩),
    ((6, 1), ⟨"pride", "Be proud of how far you've come. Be hungry for how far you'll go.",
      "mountain peak view at sunset, victorious stance, clouds below"⟩),
    ((7, 4), ⟨"independence", "Financial freedom is the only independence worth fighting for.",
      "corner office at night, city lights below, empire builder"⟩),
    ((8, 4), ⟨"friendship", "Your circle should motivate you, not comfort your mediocrity.",
      "two figures training together at dawn, mutual respect and drive"⟩),
    ((9, 1), ⟨"labor_sep", "While they vacation, I execute.",
      "late night office, everyone gone home, one light still on"⟩),
    ((10, 31), ⟨"halloween", "My demons? I put them to work.",
      "dark city street at night with lone figure walking purposefully, neon reflections"⟩),
    ((11, 28), ⟨"thanksgiving", "Grateful for the struggle that made me dangerous.",
      "man looking out window at city dawn, reflection on the journey"⟩),
    ((12, 25), ⟨"christmas", "The best gift you can give yourself is results.",
      "person working at desk on christmas eve, dedication, city lights outside"⟩) ]

/-- Assoc lookup on the `(month, day)` keys of `HOLIDAY_POSTS`. -/
def holidayFor (month day : ℕ) : Option HolidayPost :=
  match HOLIDAY_POSTS.find? (fun e => e.1 = (month, day)) with
  | none => none
  | some e => some e.2

/-- `get_today_holiday`: `none` when the date has no entry or the holiday's
name is already in this year's ledger (`holiday_history.json`, keyed by the
year rendered in decimal, `str(today.year)`). -/
def get_today_holiday (month day year : ℕ) (history : List (String × List String)) :
    Option HolidayPost :=
  match holidayFor month day with
  | none => none
  | some h =>
      let used := (getVal history (toString year)).getD []
      if used.contains h.name then none else some h

/-- The content decision of `__main__` (lines 650–671): the returned triple
is (text, scene_name, is_holiday); the non-holiday branch uses the
selector's pick. -/
def decideContent (holiday : Option HolidayPost) (regularPick : Scene × String) :
    String × String × Bool :=
  match holiday with
  | some hp => (hp.text, "holiday_" ++ hp.name, true)
  | none => (regularPick.2, regularPick.1.name, false)

/-! ## Demo inputs for concrete evaluations

`w10` is a rendered-width function of ten pixels per character, `wFs` one of
one pixel per character per font-size unit: simple monotone models of
`draw.textlength` used only at concrete inputs. -/

/-- Demo width: 10 pixels per character. -/
def w10 (s : String) : ℕ := 10 * s.length

/-- Demo width depending on font size: `fs` pixels per character. -/
def wFs (fs : ℕ) (s : String) : ℕ := fs * s.length

/-- A single 72-character word: renders at 720 px under `w10`, wider than the
716 px box of a 1024-wide image. -/
def demoWord72 : String :=
  "aaaaaaaaaaaaaaaaaaaaaaaaaaaaaaaaaaaaaaaaaaaaaaaaaaaaaaaaaaaaaaaaaaaaaaaa"

/-- Ten ten-character words (109 characters in all): wraps to five lines at
font size 34 under `wFs`, overflowing the four-line box. -/
def demoText10 : String :=
  "mmmmmmmmmm mmmmmmmmmm mmmmmmmmmm mmmmmmmmmm mmmmmmmmmm mmmmmmmmmm mmmmmmmmmm mmmmmmmmmm mmmmmmmmmm mmmmmmmmmm"

/-- C5 counterexample input: the claim asserts every wrapped line's rendered
width stays within the box width, but a single word wider than the box is
emitted as a line of its own, wider than the box (and an empty first line is
emitted before it). -/
theorem wrap_overlong_word_counterexample :
    wrapTextLines w10 (boxWidthOf 1024) demoWord72 = ["", demoWord72] ∧
    boxWidthOf 1024 < w10 demoWord72 := by
  constructor
  · rfl
  · decide

/-- C5 (amended): when every word of the text renders within the box width
(and the empty line renders at width at most the box width), every wrapped
line's rendered width is at most the box width. -/
theorem wrap_lines_fit_when_words_fit (width : String → ℕ) (boxW : ℕ) (text : String)
    (h0 : width "" ≤ boxW) (hw : ∀ w ∈ pySplit text, width w ≤ boxW) :
    ∀ line ∈ wrapTextLines width boxW text, width line ≤ boxW := by
  intro line hline
  rcases List.mem_map.mp hline with ⟨lw, hlw, rfl⟩
  exact wrapAux_width_le width boxW (pySplit text) [] h0 hw lw hlw

/-- Witness for C5's amended theorem at a concrete width function and text. -/
theorem wrap_lines_fit_when_words_fit_witness :
    (w10 "" ≤ boxWidthOf 1024) ∧
    (∀ w ∈ pySplit "hi there world", w10 w ≤ boxWidthOf 1024) ∧
    (∀ line ∈ wrapTextLines w10 (boxWidthOf 1024) "hi there world",
      w10 line ≤ boxWidthOf 1024) :=
  ⟨by decide, by decide,
    wrap_lines_fit_when_words_fit w10 (boxWidthOf 1024) "hi there world"
      (by decide) (by decide)⟩

/-- C10: the wrapped lines' words, concatenated in order, are exactly the
split of the input text (no word dropped, duplicated or reordered); and when
the first word alone renders wider than the box width, the first emitted
line is the empty string. -/
theorem wrap_preserves_words (width : String → ℕ) (boxW : ℕ) (text : String) :
    (wrapAux width boxW (pySplit text) []).flatten = pySplit text ∧
    (∀ w0 rest, pySplit text = w0 :: rest → boxW < width w0 →
      (wrapTextLines width boxW text).getD 0 "x" = "") := by
  refine ⟨wrapAux_flatten width boxW (pySplit text) [], ?_⟩
  intro w0 rest hsplit hlt
  unfold wrapTextLines
  rw [hsplit]
  simp only [wrapAux, List.nil_append, joinWords_singleton, if_neg (not_le.mpr hlt)]
  rfl

/-- Witness for C10 at a concrete width function and text whose first word
overflows the box. -/
theorem wrap_preserves_words_witness :
    ((wrapAux w10 5 (pySplit "hello world") []).flatten = pySplit "hello world") ∧
    ((wrapTextLines w10 5 "hello world").getD 0 "x" = "") :=
  ⟨(wrap_preserves_words w10 5 "hello world").1,
   (wrap_preserves_words w10 5 "hello world").2 "hello" ["world"]
     (by decide) (by decide)⟩

/-- C6 counterexample input: `add_text` has no shrink-to-fit loop. Here the
wrapped block is five lines, taller than the fixed four-line box, yet the
font size used is still the plain two-tier value 34. -/
theorem no_shrink_counterexample :
    boxHeightOf demoText10 < (addTextLines wFs 1024 demoText10).length * lineHeightOf demoText10 ∧
    fontSizeOf demoText10 = 34 := by
  constructor
  · show 180 < (addTextLines wFs 1024 demoText10).length * 45
    have h : (addTextLines wFs 1024 demoText10).length = 5 := by rfl
    rw [h]; decide
  · decide

/-- C6 (amended): the compositor never drops a word — the rendered lines'
words concatenate to the split of the input — and the font size is the fixed
two-tier function of the text length, never shrunk to fit the box. -/
theorem add_text_no_shrink_never_drops (width : ℕ → String → ℕ) (imgW : ℕ) (text : String) :
    (addTextLineWords width imgW text).flatten = pySplit text ∧
    fontSizeOf text = (if text.length ≤ 90 then 38 else 34) :=
  ⟨wrapAux_flatten (width (fontSizeOf text)) (boxWidthOf imgW) (pySplit text) [], rfl⟩

/-! ### Selector lemmas -/

theorem choiceD_mem {α : Type} (l : List α) (d : α) (r : ℕ) (h : l ≠ []) :
    choiceD l d r ∈ l := by
  have hlen : 0 < l.length := List.length_pos.mpr h
  have hlt : r % l.length < l.length := Nat.mod_lt r hlen
  unfold choiceD
  rw [List.getD_eq_getElem l d hlt]
  exact List.getElem_mem hlt

theorem allEligible_snd_mem {history : List (String × Int)} {today : Int}
    {p : String × String} (hp : p ∈ allEligible history today) :
    p.2 ∈ allThoughts := by
  rcases List.mem_flatMap.mp hp with ⟨ct, hct, hmem⟩
  rcases List.mem_map.mp hmem with ⟨t, ht, hEq⟩
  have ht2 : t ∈ ct.2 := List.mem_of_mem_filter ht
  have : p.2 = t := by rw [← hEq]
  rw [this]
  exact List.mem_flatMap.mpr ⟨ct, hct, ht2⟩

theorem availableScenes_ne_nil (sceneHistory : List (String × Int)) (today : Int) :
    availableScenes sceneHistory today ≠ [] := by
  unfold availableScenes
  dsimp only
  split
  · decide
  · assumption

theorem availableScenes_subset {sceneHistory : List (String × Int)} {today : Int}
    {s : Scene} (hs : s ∈ availableScenes sceneHistory today) : s ∈ SCENES := by
  unfold availableScenes at hs
  dsimp only at hs
  split at hs
  · exact hs
  · exact List.mem_of_mem_filter hs

theorem bank_categories_nonempty : ∀ ct ∈ THOUGHT_BANK, ct.2 ≠ [] := by decide

theorem bank_length : THOUGHT_BANK.length = 6 := rfl

theorem bank_category_length : ∀ c < 6, (THOUGHT_BANK.getD c ("", [])).2.length = 7 := by
  decide

theorem bank_getD_allThoughts :
    ∀ c < 6, ∀ i < 7,
      (THOUGHT_BANK.getD c ("", [])).2.getD i "" = allThoughts.getD (c * 7 + i) "" := by
  decide

/-- C4: for every cooldown history and date the selector returns a scene of
`SCENES` and a thought of the content bank (it terminates and never fails);
when every thought is on cooldown it falls back to an unconstrained choice:
the result is the `r3 % 8`-th scene and the `(r1 % 6) * 7 + r2 % 7`-th entry
of the whole 42-thought bank — the index map is a bijection from the 6 × 7
oracle grid onto the bank (whose entries are distinct), so a uniform oracle
draws uniformly over the entire bank, cooldowns ignored. -/
theorem selector_total_and_fallback_uniform
    (history sceneHistory : List (String × Int)) (today : Int) (month : String)
    (r1 r2 r3 : ℕ) :
    ((choose_scene_and_text history sceneHistory today month r1 r2 r3).1 ∈ SCENES ∧
     (choose_scene_and_text history sceneHistory today month r1 r2 r3).2 ∈ allThoughts) ∧
    (allEligible history today = [] →
      choose_scene_and_text history sceneHistory today month r1 r2 r3
        = (SCENES.getD (r3 % 8) dummyScene, allThoughts.getD ((r1 % 6) * 7 + r2 % 7) "")) ∧
    allThoughts.Nodup ∧ allThoughts.length = 42 := by
  have hnodup : allThoughts.Nodup := by decide
  have hlen42 : allThoughts.length = 42 := by decide
  by_cases helig : allEligible history today = []
  · have hcat : choiceD THOUGHT_BANK ("", []) r1 ∈ THOUGHT_BANK :=
      choiceD_mem _ _ _ (by decide)
    have hc6 : r1 % THOUGHT_BANK.length < 6 := by
      rw [bank_length]; exact Nat.mod_lt r1 (by decide)
    have hcatD : choiceD THOUGHT_BANK ("", []) r1 = THOUGHT_BANK.getD (r1 % 6) ("", []) := by
      unfold choiceD; rw [bank_length]
    refine ⟨⟨?_, ?_⟩, ?_, hnodup, hlen42⟩
    · simp only [choose_scene_and_text, if_pos helig]
      exact choiceD_mem _ _ _ (by decide)
    · simp only [choose_scene_and_text, if_pos helig]
      have htext : choiceD (choiceD THOUGHT_BANK ("", []) r1).2 "" r2
          ∈ (choiceD THOUGHT_BANK ("", []) r1).2 :=
        choiceD_mem _ _ _ (bank_categories_nonempty _ hcat)
      exact List.mem_flatMap.mpr ⟨_, hcat, htext⟩
    · intro _
      simp only [choose_scene_and_text, if_pos helig]
      have hscene : choiceD SCENES dummyScene r3 = SCENES.getD (r3 % 8) dummyScene := rfl
      have hc : r1 % 6 < 6 := Nat.mod_lt r1 (by decide)
      have hi : r2 % 7 < 7 := Nat.mod_lt r2 (by decide)
      have hcatlen : (THOUGHT_BANK.getD (r1 % 6) ("", [])).2.length = 7 :=
        bank_category_length (r1 % 6) hc
      have htext : choiceD (choiceD THOUGHT_BANK ("", []) r1).2 "" r2
          = allThoughts.getD ((r1 % 6) * 7 + r2 % 7) "" := by
        rw [hcatD]
        unfold choiceD
        rw [hcatlen]
        exact bank_getD_allThoughts (r1 % 6) hc (r2 % 7) hi
      rw [hscene, htext]
  · have havail := availableScenes_ne_nil sceneHistory today
    refine ⟨?_, fun h => absurd h helig, hnodup, hlen42⟩
    simp only [choose_scene_and_text, if_neg helig]
    set elig := allEligible history today with helig_def
    set preferred := (getVal SEASONAL_MAP month).getD [] with hpref
    set seasonal := elig.filter (fun x => preferred.contains x.1) with hseas
    by_cases hcond : preferred ≠ [] ∧ seasonal ≠ []
    · rw [if_pos hcond]
      constructor
      · exact availableScenes_subset (choiceD_mem _ _ _ havail)
      · have hpair : choiceD seasonal ("", "") r2 ∈ seasonal :=
          choiceD_mem _ _ _ hcond.2
        exact allEligible_snd_mem (List.mem_of_mem_filter hpair)
    · rw [if_neg hcond]
      constructor
      · exact availableScenes_subset (choiceD_mem _ _ _ havail)
      · exact allEligible_snd_mem (choiceD_mem elig ("", "") r2 helig)

/-- Every thought on cooldown today: the all-on-cooldown history for the
fallback witness. -/
def histAllUsed : List (String × Int) :=
  allThoughts.map (fun t => (t, (0 : Int)))

/-- Witness for C4's fallback clause at a concrete all-on-cooldown history. -/
theorem selector_total_and_fallback_uniform_witness :
    (allEligible histAllUsed 0 = []) ∧
    (choose_scene_and_text histAllUsed [] 0 "" 1 2 3
      = (SCENES.getD (3 % 8) dummyScene, allThoughts.getD ((1 % 6) * 7 + 2 % 7) "")) :=
  ⟨by decide,
   (selector_total_and_fallback_uniform histAllUsed [] 0 "" 1 2 3).2.1 (by decide)⟩

/-! ## Crop to 4:5 (`crop_to_4_5`, lines 492–495)

`target_h = int(img.width * 5 / 4)`; `top = (img.height - target_h) // 2`
(Python floor division, `Int.fdiv`); the crop box is
`(0, top, img.width, top + target_h)`, and PIL's `Image.crop` returns an
image of exactly the box's size, here `(img.width, target_h)`, whatever the
source height. -/

/-- `target_h = int(img.width * 5 / 4)`. -/
def cropTargetH (w : ℕ) : ℕ := w * 5 / 4

/-- `top = (img.height - target_h) // 2`. -/
def cropTop (w h : ℕ) : Int := Int.fdiv ((h : Int) - (cropTargetH w : Int)) 2

/-- The size `(width, height)` of `crop_to_4_5`'s result: the box passed to
`img.crop` is `(0, top, img.width, top + target_h)`, so the result is
`img.width` wide and `target_h` tall. -/
def crop_to_4_5_size (w h : ℕ) : ℕ × ℕ := (w, cropTargetH w)

/-- Rows removed below the crop box: `img.height - (top + target_h)`. -/
def cropBottomMargin (w h : ℕ) : Int :=
  (h : Int) - (cropTop w h + (cropTargetH w : Int))

/-- C9 counterexample input: at source width 6 the cropped height is
`int(6 * 5 / 4) = 7`, and `7 * 4 ≠ 6 * 5`, so the result's height is not
5/4 of its width (the ratio only holds when 4 divides the width). -/
theorem crop_height_counterexample :
    crop_to_4_5_size 6 100 = (6, 7) ∧
    (crop_to_4_5_size 6 100).2 * 4 ≠ (crop_to_4_5_size 6 100).1 * 5 := by
  constructor
  · rfl
  · decide

/-- C9 (amended): the crop keeps the width and sets the height to
`⌊5·width/4⌋`; when the source is tall enough to contain the target box the
removed top and bottom margins partition the excess height and differ by at
most one row (centered up to floor rounding). -/
theorem crop_to_4_5_dims (w h : ℕ) (hfit : cropTargetH w ≤ h) :
    crop_to_4_5_size w h = (w, w * 5 / 4) ∧
    0 ≤ cropTop w h ∧
    cropTop w h + cropBottomMargin w h = (h : Int) - (cropTargetH w : Int) ∧
    cropTop w h ≤ cropBottomMargin w h ∧
    cropBottomMargin w h ≤ cropTop w h + 1 := by
  have hD : 0 ≤ (h : Int) - (cropTargetH w : Int) := by
    omega
  have hfd : cropTop w h = ((h : Int) - (cropTargetH w : Int)) / 2 :=
    Int.fdiv_eq_ediv _ (by decide)
  refine ⟨rfl, ?_⟩
  unfold cropBottomMargin
  rw [hfd]
  omega

/-- Witness for C9's amended theorem at the generated image size 1024×1536. -/
theorem crop_to_4_5_dims_witness :
    cropTargetH 1024 ≤ 1536 ∧
    (crop_to_4_5_size 1024 1536 = (1024, 1024 * 5 / 4) ∧
     0 ≤ cropTop 1024 1536 ∧
     cropTop 1024 1536 + cropBottomMargin 1024 1536 = (1536 : Int) - (cropTargetH 1024 : Int) ∧
     cropTop 1024 1536 ≤ cropBottomMargin 1024 1536 ∧
     cropBottomMargin 1024 1536 ≤ cropTop 1024 1536 + 1) :=
  ⟨by decide, crop_to_4_5_dims 1024 1536 (by decide)⟩

/-! ## Vertical placement (`add_text`, lines 519–531)

The image after cropping is modelled by its luminance per pixel (the `"L"`
conversion of the candidate crop), a function `pix : ℕ → ℕ → ℚ`.
`zone_score` is `ImageStat.Stat(crop).stddev[0]`, the square root of the
variance over the candidate box; square roots are monotone, so the candidate
minimising the variance is the one minimising the standard deviation, and
`selectBoxY` compares variances. -/

/-- Sum of `pix` over the box of width `w`, height `h` at `(x0, y0)`. -/
def boxSum (pix : ℕ → ℕ → ℚ) (x0 y0 w h : ℕ) : ℚ :=
  ((List.range h).map (fun dy =>
    ((List.range w).map (fun dx => pix (x0 + dx) (y0 + dy))).sum)).sum

/-- Sum of squared `pix` over the same box. -/
def boxSqSum (pix : ℕ → ℕ → ℚ) (x0 y0 w h : ℕ) : ℚ :=
  ((List.range h).map (fun dy =>
    ((List.range w).map (fun dx => pix (x0 + dx) (y0 + dy) ^ 2)).sum)).sum

/-- Luminance variance over the candidate text box at vertical offset `y`:
`zone_score(y)` is the square root of this. -/
def zoneVarAt (pix : ℕ → ℕ → ℚ) (imgW : ℕ) (text : String) (y : ℕ) : ℚ :=
  let bw := boxWidthOf imgW
  let bh := boxHeightOf text
  let bx := boxXOf imgW
  let n : ℚ := ((bw * bh : ℕ) : ℚ)
  boxSqSum pix bx y bw bh / n - (boxSum pix bx y bw bh / n) ^ 2

/-- `candidate_ys = [int(img.height * 0.10), int(img.height * 0.75)]`. -/
def candidateYs (imgH : ℕ) : List ℕ :=
  [imgH * 10 / 100, imgH * 75 / 100]

/-- `BOX_Y = min(candidate_ys, key=zone_score)`: Python's `min` keeps the
first candidate on ties. -/
def selectBoxY (pix : ℕ → ℕ → ℚ) (imgW imgH : ℕ) (text : String) : ℕ :=
  if zoneVarAt pix imgW text (imgH * 75 / 100) < zoneVarAt pix imgW text (imgH * 10 / 100) then
    imgH * 75 / 100
  else
    imgH * 10 / 100

/-- C7: the chosen vertical placement is one of the two fixed candidates
(10% and 75% of the cropped height) and its candidate box has the lowest
luminance variance, hence the lowest standard deviation (`Real.sqrt` of the
variance), among the candidates. -/
theorem placement_in_candidates_minimizes_stddev
    (pix : ℕ → ℕ → ℚ) (imgW imgH : ℕ) (text : String) :
    selectBoxY pix imgW imgH text ∈ candidateYs imgH ∧
    (∀ y ∈ candidateYs imgH,
      zoneVarAt pix imgW text (selectBoxY pix imgW imgH text) ≤ zoneVarAt pix imgW text y ∧
      Real.sqrt ((zoneVarAt pix imgW text (selectBoxY pix imgW imgH text) : ℚ) : ℝ)
        ≤ Real.sqrt ((zoneVarAt pix imgW text y : ℚ) : ℝ)) := by
  have hmain : selectBoxY pix imgW imgH text ∈ candidateYs imgH ∧
      (∀ y ∈ candidateYs imgH,
        zoneVarAt pix imgW text (selectBoxY pix imgW imgH text) ≤ zoneVarAt pix imgW text y) := by
    unfold selectBoxY candidateYs
    split
    · refine ⟨by simp, ?_⟩
      intro y hy
      rcases List.mem_pair.mp hy with rfl | rfl
      · next hlt => exact le_of_lt hlt
      · exact le_refl _
    · refine ⟨by simp, ?_⟩
      intro y hy
      rcases List.mem_pair.mp hy with rfl | rfl
      · exact le_refl _
      · next hnlt => exact le_of_not_lt hnlt
  refine ⟨hmain.1, fun y hy => ⟨hmain.2 y hy, ?_⟩⟩
  have h := hmain.2 y hy
  exact Real.sqrt_le_sqrt (by exact_mod_cast h)

/-! ## Posting gate (`__main__`, lines 615–648)

The gate sequence of `__main__`: kill-switch check (skipped under
`FORCE_POST`), `validate_fonts`, `check_token_health` (a network request to
the platform's `/me` endpoint unless `DRY_RUN`; on failure it appends to the
error log, writes the kill-switch sentinel and, unless `FORCE_POST`, exits),
monthly-cap check (skipped under `DRY_RUN`), time-window check and
daily-marker check (each skipped under `DRY_RUN` or `FORCE_POST`). The
model returns the gate outcome together with the state-store files written
and the network endpoints called up to that point. -/

/-- `POST_WINDOWS = [(13, 15)]`. -/
def POST_WINDOWS : List (ℕ × ℕ) := [(13, 15)]

/-- `MAX_MONTHLY_IMAGES = 30`. -/
def MAX_MONTHLY_IMAGES : ℕ := 30

/-- `is_good_posting_time`: the current hour lies in some window. -/
def is_good_posting_time (hour : ℕ) : Bool :=
  POST_WINDOWS.any (fun se => se.1 ≤ hour && hour < se.2)

/-- `check_monthly_cap`: the current month's count has reached the cap. -/
def check_monthly_cap (monthly : List (String × ℕ)) (month : String) : Bool :=
  MAX_MONTHLY_IMAGES ≤ (getVal monthly month).getD 0

/-- `already_posted_today`: the daily-marker file holds today's date. -/
def already_posted_today (lastPost : Option String) (today : String) : Bool :=
  lastPost = some today

/-- How a gate run ends. `fatalFonts` models the `validate_fonts` exception
(a configuration error, not a gate denial); the four `deny…` outcomes are
the gate denials the spec lists, `denyToken` the token-health exit. -/
inductive GateOutcome where
  | denyKill
  | fatalFonts
  | denyToken
  | denyCap
  | denyWindow
  | denyDaily
  | proceed
deriving DecidableEq

/-- The state-store files the gate can touch. -/
inductive FileTag where
  | errorLogFile
  | killSwitchFile
deriving DecidableEq

/-- Network endpoints of the pipeline. -/
inductive NetTarget where
  | healthProbe
  | imageApi
  | chatApi
  | publishApi
deriving DecidableEq

/-- The four gate denials of the spec (kill switch, monthly cap, time
window, daily marker). -/
def isListedDenial (o : GateOutcome) : Bool :=
  o = GateOutcome.denyKill || o = GateOutcome.denyCap ||
  o = GateOutcome.denyWindow || o = GateOutcome.denyDaily

/-- The gate sequence of `__main__` lines 615–648. `probeOk` is the outcome
the token-health request would have; the returned lists are the state-store
files written and the endpoints called before the run ends or proceeds. -/
def runGate (dryRun forcePost killSwitch fontsOk probeOk : Bool)
    (monthly : List (String × ℕ)) (month : String) (hour : ℕ)
    (lastPost : Option String) (today : String) :
    GateOutcome × List FileTag × List NetTarget :=
  if killSwitch && !forcePost then (GateOutcome.denyKill, [], [])
  else if !fontsOk then (GateOutcome.fatalFonts, [], [])
  else
    let calls := if dryRun then [] else [NetTarget.healthProbe]
    let healthy := dryRun || probeOk
    let writes := if healthy then [] else [FileTag.errorLogFile, FileTag.killSwitchFile]
    if !healthy && !forcePost then (GateOutcome.denyToken, writes, calls)
    else if check_monthly_cap monthly month && !dryRun then (GateOutcome.denyCap, writes, calls)
    else if !is_good_posting_time hour && !dryRun && !forcePost then
      (GateOutcome.denyWindow, writes, calls)
    else if already_posted_today lastPost today && !dryRun && !forcePost then
      (GateOutcome.denyDaily, writes, calls)
    else (GateOutcome.proceed, writes, calls)

/-- C2 counterexample input: with `FORCE_POST` set and the kill-switch
sentinel present (fonts fine, probe fine, cap not reached), the gate does
not deny — `check_kill_switch() and not FORCE_POST` skips the kill-switch
exit, so the override bypasses the kill switch, contradicting the claim
that it still denies. -/
theorem force_post_bypasses_kill_switch :
    runGate false true true true true [] "2026-10" 0 none "2026-10-12"
      = (GateOutcome.proceed, [], [NetTarget.healthProbe]) := by
  rfl

/-- C2 (amended): with `FORCE_POST` set (fonts present), the gate still
denies when the monthly cap is reached and `DRY_RUN` is off, and otherwise
proceeds whatever the kill switch, probe outcome, hour and daily marker:
the override bypasses the kill-switch, token-health, time-window and
daily-marker checks but never the monthly cap. -/
theorem force_post_blocks_only_monthly_cap
    (dryRun killSwitch probeOk : Bool) (monthly : List (String × ℕ)) (month : String)
    (hour : ℕ) (lastPost : Option String) (today : String)
    (hcap : check_monthly_cap monthly month = true) (hdry : dryRun = false) :
    (runGate dryRun true killSwitch true probeOk monthly month hour lastPost today).1
      = GateOutcome.denyCap ∧
    (∀ monthly2 month2,
      check_monthly_cap monthly2 month2 = false →
      (runGate dryRun true killSwitch true probeOk monthly2 month2 hour lastPost today).1
        = GateOutcome.proceed) := by
  subst hdry
  constructor
  · simp [runGate, hcap]
  · intro monthly2 month2 hcap2
    simp [runGate, hcap2]

/-- Witness for C2's amended theorem: cap reached in one store, not in the
other. -/
theorem force_post_blocks_only_monthly_cap_witness :
    (check_monthly_cap [("2026-10", 30)] "2026-10" = true) ∧
    ((false : Bool) = false) ∧
    ((runGate false true true true true [("2026-10", 30)] "2026-10" 0 none "d").1
        = GateOutcome.denyCap ∧
     (∀ monthly2 month2,
       check_monthly_cap monthly2 month2 = false →
       (runGate false true true true true monthly2 month2 0 none "d").1
         = GateOutcome.proceed)) :=
  ⟨by decide, rfl,
   force_post_blocks_only_monthly_cap false true true [("2026-10", 30)] "2026-10" 0 none "d"
     (by decide) rfl⟩

/-- C3 counterexample input: `FORCE_POST` on, kill switch absent, fonts
present, token-health probe failing, cap reached: the run ends in the
listed denial "monthly cap reached", yet the failed probe has already
written the error log and the kill-switch sentinel — a gate-denying
invocation that does modify state-store files. -/
theorem gate_denial_writes_counterexample :
    runGate false true false true false [("2026-10", 30)] "2026-10" 14 none "2026-10-12"
      = (GateOutcome.denyCap, [FileTag.errorLogFile, FileTag.killSwitchFile],
         [NetTarget.healthProbe]) ∧
    isListedDenial GateOutcome.denyCap = true := by
  constructor
  · rfl
  · decide

/-- C3 (amended): on every gate denial no call to the image, chat or publish
API has been made (at most the token-health probe), and no state-store file
has been written except that a failed token-health probe (which runs before
the cap, window and daily checks) writes the error log and the kill-switch
sentinel; when the probe succeeded or `DRY_RUN` skipped it, nothing is
written. -/
theorem gate_denial_effects
    (dryRun forcePost killSwitch fontsOk probeOk : Bool)
    (monthly : List (String × ℕ)) (month : String) (hour : ℕ)
    (lastPost : Option String) (today : String)
    (hdeny : isListedDenial
      (runGate dryRun forcePost killSwitch fontsOk probeOk monthly month hour lastPost today).1
      = true) :
    (NetTarget.imageApi ∉
        (runGate dryRun forcePost killSwitch fontsOk probeOk monthly month hour lastPost today).2.2 ∧
     NetTarget.chatApi ∉
        (runGate dryRun forcePost killSwitch fontsOk probeOk monthly month hour lastPost today).2.2 ∧
     NetTarget.publishApi ∉
        (runGate dryRun forcePost killSwitch fontsOk probeOk monthly month hour lastPost today).2.2) ∧
    (∀ f ∈ (runGate dryRun forcePost killSwitch fontsOk probeOk monthly month hour lastPost today).2.1,
      f = FileTag.errorLogFile ∨ f = FileTag.killSwitchFile) ∧
    ((dryRun || probeOk) = true →
      (runGate dryRun forcePost killSwitch fontsOk probeOk monthly month hour lastPost today).2.1
        = []) := by
  unfold runGate
  dsimp only
  split
  · simp
  · split
    · simp
    · split
      · split <;> simp_all
      · split
        · split <;> simp_all
        · split
          · split <;> simp_all
          · split
            · split <;> simp_all
            · split <;> simp_all

/-- Witness for C3's amended theorem at a kill-switch denial. -/
theorem gate_denial_effects_witness :
    (isListedDenial (runGate false false true true true [] "2026-10" 14 none "d").1 = true) ∧
    ((NetTarget.imageApi ∉ (runGate false false true true true [] "2026-10" 14 none "d").2.2 ∧
      NetTarget.chatApi ∉ (runGate false false true true true [] "2026-10" 14 none "d").2.2 ∧
      NetTarget.publishApi ∉ (runGate false false true true true [] "2026-10" 14 none "d").2.2) ∧
     (∀ f ∈ (runGate false false true true true [] "2026-10" 14 none "d").2.1,
       f = FileTag.errorLogFile ∨ f = FileTag.killSwitchFile) ∧
     ((false || true) = true →
       (runGate false false true true true [] "2026-10" 14 none "d").2.1 = [])) :=
  ⟨by decide,
   gate_denial_effects false false true true true [] "2026-10" 14 none "d" (by decide)⟩

/-! ## Publish and state commit (`post_to_facebook`, lines 594–610, and
`__main__`, lines 673–701)

`post_to_facebook` raises on any HTTP status other than 200 and on any
transport exception, after writing the kill-switch sentinel; in `__main__`
the five state commits (daily marker, monthly counter, thought cooldown,
scene cooldown, holiday ledger) and the success log entry run only after
`post_to_facebook` returned, the failure path only appending the failure
row and the error log. The publish outcome is modelled as `Option ℕ`: the
HTTP status, or `none` for a transport error. -/

/-- A row of `engagement_log.csv` (date, scene, thought, status; the
time-of-day column is omitted). -/
structure EngRow where
  date : String
  scene : String
  thought : String
  status : String
deriving DecidableEq

/-- The file-backed state store, read into memory: daily marker, monthly
counter, thought cooldown history, scene cooldown history, holiday ledger,
kill-switch sentinel, engagement log and error log. -/
structure StoreState where
  lastPost : Option String
  monthly : List (String × ℕ)
  thoughtHist : List (String × String)
  sceneHist : List (String × String)
  holidayHist : List (String × List String)
  killSwitch : Bool
  engagementLog : List EngRow
  errorLog : List String
deriving DecidableEq

/-- JSON-object field assignment `data[k] = v`. -/
def setKey {α : Type} : List (String × α) → String → α → List (String × α)
  | [], k, v => [(k, v)]
  | (k', v') :: t, k, v => if k' = k then (k, v) :: t else (k', v') :: setKey t k v

/-- `increment_monthly_cap`: `data[month] = data.get(month, 0) + 1`. -/
def increment_monthly_cap (monthly : List (String × ℕ)) (month : String) :
    List (String × ℕ) :=
  setKey monthly month ((getVal monthly month).getD 0 + 1)

/-- `mark_holiday_used`: `history.setdefault(year, []).append(name)`. -/
def mark_holiday_used (hist : List (String × List String)) (year name : String) :
    List (String × List String) :=
  setKey hist year ((getVal hist year).getD [] ++ [name])

/-- `post_to_facebook`: under `DRY_RUN` the upload is skipped and treated as
success; otherwise status 200 is success and anything else — any other
status or a transport error (`none`) — writes the kill-switch sentinel and
raises. Returns the store and `true` on success. -/
def post_to_facebook (dryRun : Bool) (resp : Option ℕ) (st : StoreState) :
    StoreState × Bool :=
  if dryRun then (st, true)
  else
    match resp with
    | some code => if code = 200 then (st, true) else ({ st with killSwitch := true }, false)
    | none => ({ st with killSwitch := true }, false)

/-- The publish step and the state commits of `__main__` lines 677–701,
given that generation and compositing succeeded: on publish success (and
not `DRY_RUN`) the daily marker, monthly counter, thought history, scene
history and (for a holiday) holiday ledger are written and a SUCCESS row
logged; on publish failure the exception handler logs a FAILED row and the
error, and exits nonzero. Returns the store and `true` when the run
succeeded. -/
def publishAndCommit (dryRun : Bool) (resp : Option ℕ) (today month text sceneName : String)
    (isHoliday : Bool) (hname year : String) (st : StoreState) : StoreState × Bool :=
  let pr := post_to_facebook dryRun resp st
  if pr.2 then
    if dryRun then
      ({ pr.1 with
          engagementLog := pr.1.engagementLog ++ [⟨today, sceneName, text, "DRY_RUN_SUCCESS"⟩] },
        true)
    else
      ({ pr.1 with
          lastPost := some today,
          monthly := increment_monthly_cap pr.1.monthly month,
          thoughtHist := setKey pr.1.thoughtHist text today,
          sceneHist := setKey pr.1.sceneHist sceneName today,
          holidayHist := if isHoliday then mark_holiday_used pr.1.holidayHist year hname
                         else pr.1.holidayHist,
          engagementLog := pr.1.engagementLog ++ [⟨today, sceneName, text, "SUCCESS"⟩] },
        true)
  else
    ({ pr.1 with
        engagementLog := pr.1.engagementLog ++ [⟨today, sceneName, text, "FAILED"⟩],
        errorLog := pr.1.errorLog ++ ["facebook post failed"] },
      false)

/-- The publish outcome is a non-2xx HTTP response or a transport error. -/
def isNon2xx (resp : Option ℕ) : Bool :=
  match resp with
  | none => true
  | some code => decide (code < 200) || decide (300 ≤ code)

/-- C1: on a non-2xx response or transport error the kill-switch sentinel
is set and none of the post-success records — daily marker, monthly
counter, thought cooldown history, scene cooldown history, holiday ledger —
changes, and the run fails; and for every outcome other than status 200,
none of those records changes (commits happen only after a successful
publish). -/
theorem publish_failure_sets_kill_switch_commits_nothing
    (resp : Option ℕ) (today month text sceneName : String) (isHoliday : Bool)
    (hname year : String) (st : StoreState) (h : isNon2xx resp = true) :
    ((publishAndCommit false resp today month text sceneName isHoliday hname year st).1.killSwitch
        = true ∧
     (publishAndCommit false resp today month text sceneName isHoliday hname year st).2 = false) ∧
    ((publishAndCommit false resp today month text sceneName isHoliday hname year st).1.lastPost
        = st.lastPost ∧
     (publishAndCommit false resp today month text sceneName isHoliday hname year st).1.monthly
        = st.monthly ∧
     (publishAndCommit false resp today month text sceneName isHoliday hname year st).1.thoughtHist
        = st.thoughtHist ∧
     (publishAndCommit false resp today month text sceneName isHoliday hname year st).1.sceneHist
        = st.sceneHist ∧
     (publishAndCommit false resp today month text sceneName isHoliday hname year st).1.holidayHist
        = st.holidayHist) ∧
    (∀ resp2, resp2 ≠ some 200 →
      (publishAndCommit false resp2 today month text sceneName isHoliday hname year st).1.monthly
        = st.monthly ∧
      (publishAndCommit false resp2 today month text sceneName isHoliday hname year st).1.lastPost
        = st.lastPost) := by
  have hfail : ∀ resp2, resp2 ≠ some 200 →
      post_to_facebook false resp2 st = ({ st with killSwitch := true }, false) := by
    intro resp2 h2
    match resp2 with
    | none => rfl
    | some code =>
        have hc : code ≠ 200 := by
          intro hEq; exact h2 (by rw [hEq])
        simp [post_to_facebook, hc]
  have hne : resp ≠ some 200 := by
    intro hEq
    rw [hEq] at h
    simp [isNon2xx] at h
  constructor
  · simp [publishAndCommit, hfail resp hne]
  constructor
  · simp [publishAndCommit, hfail resp hne]
  · intro resp2 h2
    simp [publishAndCommit, hfail resp2 h2]

/-- An empty state store for the concrete witnesses. -/
def emptyStore : StoreState :=
  ⟨none, [], [], [], [], false, [], []⟩

/-- Witness for C1 at HTTP status 500 against the empty store. -/
theorem publish_failure_sets_kill_switch_commits_nothing_witness :
    (isNon2xx (some 500) = true) ∧
    (((publishAndCommit false (some 500) "2026-10-12" "2026-10" "t" "s" false "" "2026"
        emptyStore).1.killSwitch = true ∧
      (publishAndCommit false (some 500) "2026-10-12" "2026-10" "t" "s" false "" "2026"
        emptyStore).2 = false) ∧
     ((publishAndCommit false (some 500) "2026-10-12" "2026-10" "t" "s" false "" "2026"
        emptyStore).1.lastPost = emptyStore.lastPost ∧
      (publishAndCommit false (some 500) "2026-10-12" "2026-10" "t" "s" false "" "2026"
        emptyStore).1.monthly = emptyStore.monthly ∧
      (publishAndCommit false (some 500) "2026-10-12" "2026-10" "t" "s" false "" "2026"
        emptyStore).1.thoughtHist = emptyStore.thoughtHist ∧
      (publishAndCommit false (some 500) "2026-10-12" "2026-10" "t" "s" false "" "2026"
        emptyStore).1.sceneHist = emptyStore.sceneHist ∧
      (publishAndCommit false (some 500) "2026-10-12" "2026-10" "t" "s" false "" "2026"
        emptyStore).1.holidayHist = emptyStore.holidayHist) ∧
     (∀ resp2, resp2 ≠ some 200 →
       (publishAndCommit false resp2 "2026-10-12" "2026-10" "t" "s" false "" "2026"
         emptyStore).1.monthly = emptyStore.monthly ∧
       (publishAndCommit false resp2 "2026-10-12" "2026-10" "t" "s" false "" "2026"
         emptyStore).1.lastPost = emptyStore.lastPost)) :=
  ⟨by decide,
   publish_failure_sets_kill_switch_commits_nothing (some 500) "2026-10-12" "2026-10" "t" "s"
     false "" "2026" emptyStore (by decide)⟩

/-! ## Holiday selection (C8) -/

/-- The fixed Christmas post of `HOLIDAY_POSTS[(12, 25)]`. -/
def christmasPost : HolidayPost :=
  ⟨"christmas", "The best gift you can give yourself is results.",
   "person working at desk on christmas eve, dedication, city lights outside"⟩

/-- C8: on (12, 25), when this year's ledger does not contain "christmas",
`get_today_holiday` yields the fixed Christmas pair and the orchestrator's
content decision is the Christmas text with scene `holiday_christmas`;
when the ledger already contains it, the lookup yields nothing and the
decision falls through to the regular selector's pick. -/
theorem christmas_selection (year : ℕ) (history : List (String × List String))
    (pick : Scene × String) :
    ("christmas" ∉ (getVal history (toString year)).getD [] →
      get_today_holiday 12 25 year history = some christmasPost ∧
      decideContent (get_today_holiday 12 25 year history) pick
        = (christmasPost.text, "holiday_christmas", true)) ∧
    ("christmas" ∈ (getVal history (toString year)).getD [] →
      get_today_holiday 12 25 year history = none ∧
      decideContent (get_today_holiday 12 25 year history) pick
        = (pick.2, pick.1.name, false)) := by
  have hfind : holidayFor 12 25 = some christmasPost := by decide
  constructor
  · intro hno
    have hget : get_today_holiday 12 25 year history = some christmasPost := by
      unfold get_today_holiday
      rw [hfind]
      simp [hno, christmasPost]
    exact ⟨hget, by rw [hget]; rfl⟩
  · intro hyes
    have hget : get_today_holiday 12 25 year history = none := by
      unfold get_today_holiday
      rw [hfind]
      simp [hyes, christmasPost]
    exact ⟨hget, by rw [hget]; rfl⟩

/-- Witness for C8: the empty ledger (first clause) and a ledger already
holding this year's "christmas" (second clause). -/
theorem christmas_selection_witness :
    (("christmas" ∉ (getVal ([] : List (String × List String)) (toString 2026)).getD []) ∧
     (get_today_holiday 12 25 2026 [] = some christmasPost ∧
      decideContent (get_today_holiday 12 25 2026 []) (dummyScene, "x")
        = (christmasPost.text, "holiday_christmas", true))) ∧
    (("christmas" ∈ (getVal [("2026", ["christmas"])] (toString 2026)).getD []) ∧
     (get_today_holiday 12 25 2026 [("2026", ["christmas"])] = none ∧
      decideContent (get_today_holiday 12 25 2026 [("2026", ["christmas"])]) (dummyScene, "x")
        = ("x", dummyScene.name, false))) :=
  ⟨⟨by decide, (christmas_selection 2026 [] (dummyScene, "x")).1 (by decide)⟩,
   ⟨by decide, (christmas_selection 2026 [("2026", ["christmas"])] (dummyScene, "x")).2
     (by decide)⟩⟩

/-- A flat (solid-colour) image: constant luminance. -/
def flatPix : ℕ → ℕ → ℚ := fun _ _ => 128

/-- Witness for C7 on a solid-colour 1024×1280 image: the selection lies in
the candidate list and scores no worse than the first candidate. -/
theorem placement_in_candidates_minimizes_stddev_witness :
    selectBoxY flatPix 1024 1280 "hi" ∈ candidateYs 1280 ∧
    (zoneVarAt flatPix 1024 "hi" (selectBoxY flatPix 1024 1280 "hi")
        ≤ zoneVarAt flatPix 1024 "hi" (1280 * 10 / 100) ∧
     Real.sqrt ((zoneVarAt flatPix 1024 "hi" (selectBoxY flatPix 1024 1280 "hi") : ℚ) : ℝ)
        ≤ Real.sqrt ((zoneVarAt flatPix 1024 "hi" (1280 * 10 / 100) : ℚ) : ℝ)) :=
  ⟨(placement_in_candidates_minimizes_stddev flatPix 1024 1280 "hi").1,
   (placement_in_candidates_minimizes_stddev flatPix 1024 1280 "hi").2 (1280 * 10 / 100)
     (by simp [candidateYs])⟩

end HustleForge
